import Mathlib

/-!
# Verification of the TrackerPython time-tracking core

A shallow embedding of the time-entry lifecycle, rate resolution,
authorization predicates and entity deletion logic of the repository,
together with theorems settling the specification claims about them.

Conventions of the embedding:
* SQLAlchemy `DateTime` values are embedded as `Int` (epoch seconds): the
  code only ever compares and subtracts them.
* `Float` rates are embedded as `Rat`; the code only compares them with `0`
  and copies them around.
* A nullable column/attribute is an `Option`.
* The database session is a `DB` record of entity lists; `commit` of a
  mutated entity is embedded as returning the updated `DB`.
* Python exceptions are embedded as `Except PyError`; functions that cannot
  raise are plain functions.
-/

namespace Tracker

/-- `TimeEntryStatus` (app/models/time_entry.py, lines 7-12). -/
inductive TimeEntryStatus
  | DRAFT
  | SUBMITTED
  | APPROVED
  | REJECTED
  | BILLED
deriving DecidableEq, BEq, Repr

/-- `UserRole` (app/models/user.py, lines 7-11). -/
inductive UserRole
  | EMPLOYEE
  | MANAGER
  | ADMIN
  | CLIENT
deriving DecidableEq, BEq, Repr

/-- The exceptions the embedded code can raise:
`NameError` (unbound global), `TypeError` (e.g. `None` compared with `<`),
`fastapi.HTTPException(status_code, detail)`, `ValueError` from pydantic
validators, and `sqlalchemy IntegrityError` when a commit violates a
NOT NULL column constraint. -/
inductive PyError
  | nameError (name : String)
  | typeError
  | httpException (code : Nat) (detail : String)
  | valueError (msg : String)
  | integrityError (msg : String)
deriving DecidableEq, Repr

/-- `User` (app/models/user.py): the columns the core logic reads. -/
structure User where
  id : Nat
  email : String
  hourly_rate : Option Rat
  role : UserRole
  is_active : Bool
  is_superuser : Bool
deriving DecidableEq, Repr

/-- `Project` (app/models/project.py): both `owner_id` and `manager_id`
are nullable columns in the schema. `manager_id` is kept `Option`;
`owner_id` is embedded as `Nat` because every project is created through
`create_with_owner`, which always sets it — the claims under study only
involve owned projects. -/
structure Project where
  id : Nat
  owner_id : Nat
  manager_id : Option Nat
deriving DecidableEq, Repr

/-- `Task` (app/models/task.py): the columns the core logic reads. -/
structure Task where
  id : Nat
  project_id : Nat
  created_by_id : Option Nat
  assigned_to_id : Option Nat
deriving DecidableEq, Repr

/-- One row of the `project_team_members` association table
(app/models/project_team_members.py); `hourly_rate` is a nullable
per-member override. -/
structure TeamMember where
  project_id : Nat
  user_id : Nat
  hourly_rate : Option Rat
deriving DecidableEq, Repr

/-- `TimeEntry` (app/models/time_entry.py, lines 14-38). The
`hourly_rate` column is declared `nullable=False` (line 21); the attribute
is embedded as `Option Rat` because the Python code can still assign
`None` to the in-memory object — the NOT NULL constraint is enforced at
commit time (see `create_time_entry`), not at assignment. -/
structure TimeEntry where
  id : Nat
  description : Option String
  start_time : Int
  end_time : Option Int
  hourly_rate : Option Rat
  billable : Bool
  status : TimeEntryStatus
  rejection_reason : Option String
  user_id : Nat
  task_id : Nat
  project_id : Nat
  approved_by_id : Option Nat
deriving DecidableEq, Repr

/-- The database state: one list per mapped table. -/
structure DB where
  users : List User
  projects : List Project
  tasks : List Task
  members : List TeamMember
  entries : List TimeEntry
deriving Repr

/-- `db.query(Project).get`-style primary-key lookup. -/
def DB.getProject (db : DB) (id : Nat) : Option Project :=
  db.projects.find? (fun p => p.id == id)

/-- `crud_task.get` primary-key lookup. -/
def DB.getTask (db : DB) (id : Nat) : Option Task :=
  db.tasks.find? (fun t => t.id == id)

/-- `crud_time_entry.get` primary-key lookup. -/
def DB.getEntry (db : DB) (id : Nat) : Option TimeEntry :=
  db.entries.find? (fun e => e.id == id)

/-- `db.query(User).get` primary-key lookup. -/
def DB.getUser (db : DB) (id : Nat) : Option User :=
  db.users.find? (fun u => u.id == id)

/-- `db.add(entry); db.commit()` on an already-loaded entry: the row with
the same primary key is replaced by the mutated object. -/
def DB.saveEntry (db : DB) (e : TimeEntry) : DB :=
  { db with entries := db.entries.map (fun x => if x.id == e.id then e else x) }

/-- Python whitespace (the characters `str.strip` removes). -/
def wsChar (c : Char) : Bool :=
  c == ' ' || c == '\t' || c == '\n' || c == '\r' || c == '\x0b' || c == '\x0c'

/-- Python `str.strip()`: drop leading and trailing whitespace. -/
def py_strip (s : String) : String :=
  String.mk (((s.toList.dropWhile wsChar).reverse.dropWhile wsChar).reverse)

namespace TimeEntry

/-- `TimeEntry.can_transition_to` (app/models/time_entry.py, lines 53-62):
the allowed-transitions table, keyed by the entry's current status. -/
def allowed_transitions : TimeEntryStatus → List TimeEntryStatus
  | .DRAFT => [.SUBMITTED]
  | .SUBMITTED => [.APPROVED, .REJECTED]
  | .APPROVED => [.BILLED]
  | .REJECTED => [.DRAFT]
  | .BILLED => []

/-- `TimeEntry.can_transition_to` membership test (`new_status in
allowed_transitions.get(self.status, [])`). -/
def can_transition_to (e : TimeEntry) (new_status : TimeEntryStatus) : Bool :=
  (allowed_transitions e.status).contains new_status

/-- `TimeEntry.validate_for_submission` (app/models/time_entry.py, lines
64-71). Python builds the four-element list eagerly, so when `end_time` is
null the expression `self.start_time < self.end_time` raises `TypeError`
(and likewise `self.hourly_rate > 0` when the rate is null); the
`description` element short-circuits with `and` and is safe. -/
def validate_for_submission (e : TimeEntry) : Except PyError Bool :=
  match e.end_time, e.hourly_rate with
  | some et, some r =>
      .ok (decide (e.start_time < et) &&
           (match e.description with
            | some d => decide (0 < (py_strip d).length)
            | none => false) &&
           decide ((0 : Rat) < r))
  | _, _ => .error .typeError

end TimeEntry

namespace crud_time_entry

/-- `CRUDTimeEntry.submit` (app/crud/crud_time_entry.py, lines 166-171):
sets the status unconditionally — no state-machine or validation check. -/
def submit (time_entry : TimeEntry) : TimeEntry :=
  { time_entry with status := .SUBMITTED }

/-- `CRUDTimeEntry.approve` (app/crud/crud_time_entry.py, lines 173-179):
sets status and approver unconditionally. -/
def approve (time_entry : TimeEntry) (approved_by : User) : TimeEntry :=
  { time_entry with status := .APPROVED, approved_by_id := some approved_by.id }

/-- `CRUDTimeEntry.reject` (app/crud/crud_time_entry.py, lines 181-187):
sets status unconditionally; the `rejection_reason` argument is ignored
(the body only carries a comment about it), so the reason is not stored. -/
def reject (time_entry : TimeEntry) (rejection_reason : String) : TimeEntry :=
  { time_entry with status := .REJECTED }

/-- `CRUDTimeEntry.mark_billed` (app/crud/crud_time_entry.py, lines
189-194): sets status unconditionally. -/
def mark_billed (time_entry : TimeEntry) : TimeEntry :=
  { time_entry with status := .BILLED }

/-- `CRUDTimeEntry.can_update` (app/crud/crud_time_entry.py, lines
196-204). -/
def can_update (db : DB) (user : User) (time_entry : TimeEntry) : Bool :=
  if user.is_superuser || time_entry.user_id == user.id then true
  else
    match db.getProject time_entry.project_id with
    | some p => p.manager_id == some user.id
    | none => false

/-- `CRUDTimeEntry.can_submit` (app/crud/crud_time_entry.py, lines
216-217): owner only. -/
def can_submit (db : DB) (user : User) (time_entry : TimeEntry) : Bool :=
  time_entry.user_id == user.id

/-- `CRUDTimeEntry.can_approve` (app/crud/crud_time_entry.py, lines
219-227): superuser, global MANAGER role, or the entry's project manager.
No status is consulted. -/
def can_approve (db : DB) (user : User) (time_entry : TimeEntry) : Bool :=
  if user.is_superuser || user.role == .MANAGER then true
  else
    match db.getProject time_entry.project_id with
    | some p => p.manager_id == some user.id
    | none => false

/-- `CRUDTimeEntry.can_mark_billed` (app/crud/crud_time_entry.py, lines
229-230). -/
def can_mark_billed (db : DB) (user : User) (time_entry : TimeEntry) : Bool :=
  user.is_superuser || user.role == .MANAGER

end crud_time_entry

namespace time_entries_api

/-- `submit_time_entry` endpoint (app/api/v1/endpoints/time_entries.py,
lines 145-164): 404 if missing, 403 if not the owner, then the unguarded
`crud_time_entry.submit`. -/
def submit_time_entry (db : DB) (time_entry_id : Nat) (current_user : User) :
    Except PyError (DB × TimeEntry) :=
  match db.getEntry time_entry_id with
  | none => .error (.httpException 404 "Time entry not found")
  | some time_entry =>
    if crud_time_entry.can_submit db current_user time_entry then
      let te := crud_time_entry.submit time_entry
      .ok (db.saveEntry te, te)
    else
      .error (.httpException 403 "Not enough permissions")

/-- `approve_time_entry` endpoint (app/api/v1/endpoints/time_entries.py,
lines 166-185). -/
def approve_time_entry (db : DB) (time_entry_id : Nat) (current_user : User) :
    Except PyError (DB × TimeEntry) :=
  match db.getEntry time_entry_id with
  | none => .error (.httpException 404 "Time entry not found")
  | some time_entry =>
    if crud_time_entry.can_approve db current_user time_entry then
      let te := crud_time_entry.approve time_entry current_user
      .ok (db.saveEntry te, te)
    else
      .error (.httpException 403 "Not enough permissions")

/-- `reject_time_entry` endpoint (app/api/v1/endpoints/time_entries.py,
lines 187-211): the `rejection_reason` query parameter is declared with
`min_length=1`, so an empty reason is rejected by FastAPI (422) before the
handler runs. -/
def reject_time_entry (db : DB) (time_entry_id : Nat) (rejection_reason : String)
    (current_user : User) : Except PyError (DB × TimeEntry) :=
  if rejection_reason.length == 0 then
    .error (.httpException 422 "ensure this value has at least 1 characters")
  else
    match db.getEntry time_entry_id with
    | none => .error (.httpException 404 "Time entry not found")
    | some time_entry =>
      if crud_time_entry.can_approve db current_user time_entry then
        let te := crud_time_entry.reject time_entry rejection_reason
        .ok (db.saveEntry te, te)
      else
        .error (.httpException 403 "Not enough permissions")

/-- `mark_time_entry_billed` endpoint (app/api/v1/endpoints/time_entries.py,
lines 213-232). -/
def mark_time_entry_billed (db : DB) (time_entry_id : Nat) (current_user : User) :
    Except PyError (DB × TimeEntry) :=
  match db.getEntry time_entry_id with
  | none => .error (.httpException 404 "Time entry not found")
  | some time_entry =>
    if crud_time_entry.can_mark_billed db current_user time_entry then
      let te := crud_time_entry.mark_billed time_entry
      .ok (db.saveEntry te, te)
    else
      .error (.httpException 403 "Not enough permissions")

end time_entries_api

namespace crud_project

/-- `CRUDProject.get_team_member` (app/crud/crud_project.py, lines 51-60):
the row of `project_team_members` for the (project, user) pair, if any. -/
def get_team_member (db : DB) (project_id : Nat) (user_id : Nat) : Option TeamMember :=
  db.members.find? (fun m => m.project_id == project_id && m.user_id == user_id)

/-- `CRUDProject.add_team_member` (app/crud/crud_project.py, lines 62-78):
inserts a membership row; only the `members` table changes. -/
def add_team_member (db : DB) (project_id : Nat) (user_id : Nat)
    (hourly_rate : Option Rat) : DB :=
  { db with members := db.members ++ [⟨project_id, user_id, hourly_rate⟩] }

/-- `CRUDProject.remove_team_member` (app/crud/crud_project.py, lines
80-94): deletes the membership row; only the `members` table changes. -/
def remove_team_member (db : DB) (project_id : Nat) (user_id : Nat) : DB :=
  { db with members :=
      db.members.filter (fun m => !(m.project_id == project_id && m.user_id == user_id)) }

/-- `CRUDProject.can_delete` (app/crud/crud_project.py, lines 140-141):
superuser or the project's manager. (No endpoint calls this predicate.) -/
def can_delete (user : User) (project : Project) : Bool :=
  user.is_superuser || project.manager_id == some user.id

end crud_project

namespace projects_api

/-- `delete_project` endpoint (app/api/v1/endpoints/projects.py, lines
170-187): 404 if missing; denied unless the caller is a superuser or the
project's OWNER (`not current_user.is_superuser and project.owner_id !=
current_user.id`); then deletes the project row. -/
def delete_project (db : DB) (project_id : Nat) (current_user : User) :
    Except PyError DB :=
  match db.getProject project_id with
  | none => .error (.httpException 404 "Project not found")
  | some project =>
    if !current_user.is_superuser && project.owner_id != current_user.id then
      .error (.httpException 400 "Not enough permissions")
    else
      .ok { db with projects := db.projects.filter (fun p => p.id != project_id) }

end projects_api

namespace crud_task

/-- `CRUDTask.can_track_time` (app/crud/crud_task.py, lines 166-180):
superuser, the task's assignee, the project's manager, or a project team
member. The body reads `task.project.manager_id` without a null guard, so
a task whose project row is missing raises (embedded as `typeError`).
(No endpoint calls this predicate.) -/
def can_track_time (db : DB) (user : User) (task : Task) : Except PyError Bool :=
  let project_member := crud_project.get_team_member db task.project_id user.id
  match db.getProject task.project_id with
  | none => .error .typeError
  | some project =>
    .ok (user.is_superuser || task.assigned_to_id == some user.id ||
         project.manager_id == some user.id || project_member.isSome)

end crud_task

/-- The payload of `TimeEntryCreate` (app/schemas/time_entry.py, lines
6-29) after pydantic validation: `status` defaults to `DRAFT` but a caller
may send an explicit null, and `billable` defaults to true. The schema
validators guarantee `end_time ≥ start_time` and a positive
`hourly_rate` when those are supplied; the payload's `hourly_rate` and
`project_id` are overwritten by the endpoint and are omitted here. -/
structure TimeEntryCreate where
  task_id : Nat
  start_time : Int
  end_time : Option Int := none
  description : Option String := none
  billable : Bool := true
  status : Option TimeEntryStatus := some .DRAFT
deriving DecidableEq, Repr

/-- The next autoincremented `timeentry.id`. -/
def DB.nextEntryId (db : DB) : Nat :=
  (db.entries.map (fun e => e.id)).foldr max 0 + 1

namespace time_entries_api

/-- `create_time_entry` endpoint (app/api/v1/endpoints/time_entries.py,
lines 73-121): 404 if the task is missing; 400 unless the payload status
is DRAFT; then the hourly rate is resolved with a Python truthiness test
(`if project_member and project_member.get("hourly_rate")`), so a null
**or zero** member override falls back to the user's personal rate, and
the entry is created for the caller with no team-membership check.
`create_with_owner` then commits the INSERT; `timeentry.hourly_rate` is
declared `nullable=False` (app/models/time_entry.py, line 21), so when
the resolved rate is null (user without a personal rate and no truthy
override) the commit fails with `IntegrityError` instead of persisting
the entry. -/
def create_time_entry (db : DB) (time_entry_in : TimeEntryCreate) (current_user : User) :
    Except PyError (DB × TimeEntry) :=
  match db.getTask time_entry_in.task_id with
  | none => .error (.httpException 404 "Task not found")
  | some task =>
    if time_entry_in.status ≠ some .DRAFT then
      .error (.httpException 400 "New time entries must be created in draft status")
    else
      let project_member := crud_project.get_team_member db task.project_id current_user.id
      let hourly_rate : Option Rat :=
        match project_member with
        | some m =>
          match m.hourly_rate with
          | some r => if r ≠ 0 then some r else current_user.hourly_rate
          | none => current_user.hourly_rate
        | none => current_user.hourly_rate
      match hourly_rate with
      | none =>
        .error (.integrityError "NOT NULL constraint failed: timeentry.hourly_rate")
      | some rate =>
        let te : TimeEntry :=
          { id := db.nextEntryId
            description := time_entry_in.description
            start_time := time_entry_in.start_time
            end_time := time_entry_in.end_time
            hourly_rate := some rate
            billable := time_entry_in.billable
            status := .DRAFT
            rejection_reason := none
            user_id := current_user.id
            task_id := time_entry_in.task_id
            project_id := task.project_id
            approved_by_id := none }
        .ok ({ db with entries := db.entries ++ [te] }, te)

end time_entries_api

namespace crud_user

/-- `CRUDUser.remove` (app/crud/crud_user.py, lines 67-111): 404 if the
user is missing; conflict (HTTP 400) while the user has a time entry whose
status is outside {APPROVED, REJECTED, BILLED}, or manages or owns any
project; otherwise clears the user's team memberships, nulls
`assigned_to_id`/`created_by_id` on their tasks and `approved_by_id` on
entries they approved, and deletes the user row. -/
def remove (db : DB) (id : Nat) : Except PyError (DB × User) :=
  match db.getUser id with
  | none => .error (.httpException 404 "User not found")
  | some user =>
    if (db.entries.filter (fun e => e.user_id == user.id)).any
        (fun e => !([TimeEntryStatus.APPROVED, .REJECTED, .BILLED].contains e.status)) then
      .error (.httpException 400
        "Cannot delete user with pending time entries. Please process all time entries first.")
    else if db.projects.any (fun p => p.manager_id == some user.id) then
      .error (.httpException 400
        "Cannot delete user who is managing projects. Please reassign the projects first.")
    else if db.projects.any (fun p => p.owner_id == user.id) then
      .error (.httpException 400
        "Cannot delete user who owns projects. Please reassign project ownership first.")
    else
      let db1 : DB :=
        { db with
          members := db.members.filter (fun m => m.user_id != user.id)
          tasks := db.tasks.map (fun t =>
            let t1 := if t.assigned_to_id == some user.id then
                        { t with assigned_to_id := none } else t
            if t1.created_by_id == some user.id then
              { t1 with created_by_id := none } else t1)
          entries := db.entries.map (fun e =>
            if e.approved_by_id == some user.id then
              { e with approved_by_id := none } else e)
          users := db.users.filter (fun u => u.id != user.id) }
      .ok (db1, user)

end crud_user

/-- The sparse patch produced by `TimeEntryUpdate.dict(exclude_unset=True)`
(app/schemas/time_entry.py, lines 31-52): `none` means the field is absent
from the patch. The schema validators guarantee `end_time ≥ start_time`
when both appear in the same patch and a positive `hourly_rate`. -/
structure TimeEntryUpdatePatch where
  task_id : Option Nat := none
  project_id : Option Nat := none
  start_time : Option Int := none
  end_time : Option Int := none
  description : Option String := none
  billable : Option Bool := none
  status : Option TimeEntryStatus := none
  hourly_rate : Option Rat := none
  rejection_reason : Option String := none
deriving DecidableEq, Repr

namespace CRUDBase

/-- Modelled from the spec: `app/crud/base.py` (`CRUDBase.update`) is not
under `src/`; §9 of the spec describes the dynamic-attribute patching it
performs as "apply a sparse set-of-fields patch to an entity, skipping
fields absent from the patch". Each field present in the patch overwrites
the entity's attribute; absent fields are left alone. -/
def update (db_obj : TimeEntry) (update_data : TimeEntryUpdatePatch) : TimeEntry :=
  { db_obj with
    task_id := update_data.task_id.getD db_obj.task_id
    project_id := update_data.project_id.getD db_obj.project_id
    start_time := update_data.start_time.getD db_obj.start_time
    end_time := match update_data.end_time with
                | some t => some t
                | none => db_obj.end_time
    description := match update_data.description with
                   | some d => some d
                   | none => db_obj.description
    billable := update_data.billable.getD db_obj.billable
    status := update_data.status.getD db_obj.status
    hourly_rate := match update_data.hourly_rate with
                   | some r => some r
                   | none => db_obj.hourly_rate
    rejection_reason := match update_data.rejection_reason with
                        | some s => some s
                        | none => db_obj.rejection_reason }

end CRUDBase

namespace crud_time_entry

/-- `CRUDTimeEntry.update` (app/crud/crud_time_entry.py, lines 119-142):
parses a string `end_time` into a datetime (a no-op in this typed
embedding, where datetimes are already `Int`) and delegates to
`CRUDBase.update`. It neither restricts the entry's status nor changes it:
setting `end_time` does not trigger any submission. -/
def update (db_obj : TimeEntry) (obj_in : TimeEntryUpdatePatch) : TimeEntry :=
  CRUDBase.update db_obj obj_in

end crud_time_entry

namespace time_entries_api

/-- `update_time_entry` endpoint (app/api/v1/endpoints/time_entries.py,
lines 123-143): 404 if missing, 403 unless `crud_time_entry.can_update`,
then the status-agnostic `crud_time_entry.update`. -/
def update_time_entry (db : DB) (time_entry_id : Nat) (time_entry_in : TimeEntryUpdatePatch)
    (current_user : User) : Except PyError (DB × TimeEntry) :=
  match db.getEntry time_entry_id with
  | none => .error (.httpException 404 "Time entry not found")
  | some time_entry =>
    if crud_time_entry.can_update db current_user time_entry then
      let te := crud_time_entry.update time_entry time_entry_in
      .ok (db.saveEntry te, te)
    else
      .error (.httpException 403 "Not enough permissions")

end time_entries_api

namespace TimesheetPermissions

/-- The global names bound in the module `app/core/permissions.py`: its
imports (lines 1-5) bind `Optional`, `Session`, `User`, `UserRole`,
`TimeEntry` and `Project`, and the class statement binds
`TimesheetPermissions`. `TimeEntryStatus` is NOT imported. -/
def module_globals : List String :=
  ["Optional", "Session", "User", "UserRole", "TimeEntry", "Project",
   "TimesheetPermissions"]

/-- Python name resolution inside `app/core/permissions.py`: evaluating a
global name raises `NameError` unless the module binds it. -/
def lookup_global (n : String) : Except PyError Unit :=
  if module_globals.contains n then .ok () else .error (.nameError n)

/-- `TimesheetPermissions.can_edit_timesheet` (app/core/permissions.py,
lines 27-46). Its first statement evaluates
`time_entry.status in [TimeEntryStatus.APPROVED, TimeEntryStatus.BILLED]`,
which resolves the global `TimeEntryStatus` before anything else; the rest
of the body is translated faithfully after that lookup. Relationship
access `time_entry.project` is resolved against `db`. -/
def can_edit_timesheet (db : DB) (user : User) (time_entry : TimeEntry) :
    Except PyError Bool := do
  let _ ← lookup_global "TimeEntryStatus"
  if [TimeEntryStatus.APPROVED, .BILLED].contains time_entry.status then
    return false
  if user.is_superuser then
    return true
  if time_entry.user_id == user.id then
    return [TimeEntryStatus.DRAFT, .REJECTED].contains time_entry.status
  if user.role == .MANAGER then
    match db.getProject time_entry.project_id with
    | some p => if p.manager_id == some user.id then return true
    | none => pure ()
  return false

/-- `TimesheetPermissions.can_approve_timesheet` (app/core/permissions.py,
lines 48-62). Its first statement compares `time_entry.status` with
`TimeEntryStatus.SUBMITTED`, resolving the unbound global first. -/
def can_approve_timesheet (db : DB) (user : User) (time_entry : TimeEntry) :
    Except PyError Bool := do
  let _ ← lookup_global "TimeEntryStatus"
  if !(time_entry.status == .SUBMITTED) then
    return false
  if user.is_superuser then
    return true
  if user.role == .MANAGER then
    match db.getProject time_entry.project_id with
    | some p => if p.manager_id == some user.id then return true
    | none => pure ()
  return false

/-- `TimesheetPermissions.can_mark_billed` (app/core/permissions.py, lines
64-70). Its first statement compares `time_entry.status` with
`TimeEntryStatus.APPROVED`, resolving the unbound global first. -/
def can_mark_billed (user : User) (time_entry : TimeEntry) :
    Except PyError Bool := do
  let _ ← lookup_global "TimeEntryStatus"
  if !(time_entry.status == .APPROVED) then
    return false
  return (user.is_superuser || user.role == .MANAGER)

end TimesheetPermissions

namespace crud_time_entry_new

/-- `CRUDTimeEntry.update` of the alternative variant
(app/crud/crud_time_entry_new.py, lines 146-170): first consults
`TimesheetPermissions.can_edit_timesheet` (403 when it returns false);
then, whenever the patch contains `end_time` — first time or not — it
overwrites the patch's `status` with SUBMITTED (no submit-style
validation) and applies the patch. -/
def update (db : DB) (db_obj : TimeEntry) (obj_in : TimeEntryUpdatePatch) (user : User) :
    Except PyError TimeEntry := do
  let allowed ← TimesheetPermissions.can_edit_timesheet db user db_obj
  if !allowed then
    throw (.httpException 403 "Not enough permissions to edit this time entry")
  let update_data :=
    if obj_in.end_time.isSome then { obj_in with status := some .SUBMITTED } else obj_in
  return CRUDBase.update db_obj update_data

/-- `CRUDTimeEntry.remove` of the alternative variant
(app/crud/crud_time_entry_new.py, lines 172-187). -/
def remove (db : DB) (id : Nat) (user : User) : Except PyError (DB × TimeEntry) := do
  match db.getEntry id with
  | none => throw (.httpException 404 "Time entry not found")
  | some obj =>
    let allowed ← TimesheetPermissions.can_edit_timesheet db user obj
    if !allowed then
      throw (.httpException 403 "Not enough permissions to delete this time entry")
    return ({ db with entries := db.entries.filter (fun e => e.id != id) }, obj)

/-- `CRUDTimeEntry.approve` of the alternative variant
(app/crud/crud_time_entry_new.py, lines 209-222). -/
def approve (db : DB) (time_entry : TimeEntry) (user : User) :
    Except PyError TimeEntry := do
  let allowed ← TimesheetPermissions.can_approve_timesheet db user time_entry
  if !allowed then
    throw (.httpException 403 "Not enough permissions to approve this time entry")
  return { time_entry with status := .APPROVED, approved_by_id := some user.id }

/-- `CRUDTimeEntry.reject` of the alternative variant
(app/crud/crud_time_entry_new.py, lines 224-237): this variant does store
the reason. -/
def reject (db : DB) (time_entry : TimeEntry) (user : User) (rejection_reason : String) :
    Except PyError TimeEntry := do
  let allowed ← TimesheetPermissions.can_approve_timesheet db user time_entry
  if !allowed then
    throw (.httpException 403 "Not enough permissions to reject this time entry")
  return { time_entry with status := .REJECTED, rejection_reason := some rejection_reason }

/-- `CRUDTimeEntry.mark_billed` of the alternative variant
(app/crud/crud_time_entry_new.py, lines 239-251). -/
def mark_billed (db : DB) (time_entry : TimeEntry) (user : User) :
    Except PyError TimeEntry := do
  let allowed ← TimesheetPermissions.can_mark_billed user time_entry
  if !allowed then
    throw (.httpException 403 "Not enough permissions to mark this time entry as billed")
  return { time_entry with status := .BILLED }

end crud_time_entry_new

namespace monthly_quota

/-- The regex `^\d{4}-(?:0[1-9]|1[0-2])$` of the `month` validator
(app/schemas/monthly_quota.py, lines 12-16). -/
def valid_month_format (s : String) : Bool :=
  match s.toList with
  | [y1, y2, y3, y4, h, m1, m2] =>
    y1.isDigit && y2.isDigit && y3.isDigit && y4.isDigit && h == '-' &&
    ((m1 == '0' && m2.isDigit && m2 != '0') ||
     (m1 == '1' && (m2 == '0' || m2 == '1' || m2 == '2')))
  | _ => false

/-- The raw constructor arguments of `MonthlyQuotaCreate`
(app/schemas/monthly_quota.py, lines 6-25): `none` means the caller did
not supply the field and the declared default applies. -/
structure MonthlyQuotaInput where
  month : String
  working_days : Option Int := none
  daily_hours : Option Rat := none
  monthly_hours : Option Rat := none
deriving DecidableEq, Repr

/-- A validated `MonthlyQuotaBase` instance. -/
structure MonthlyQuotaBase where
  month : String
  working_days : Int
  daily_hours : Rat
  monthly_hours : Rat
deriving DecidableEq, Repr

/-- Pydantic validation of `MonthlyQuotaCreate`
(app/schemas/monthly_quota.py, lines 6-25), fields in declaration order:
`month` must match the YYYY-MM regex; `working_days` (default 22) and
`daily_hours` (default 8.0) must be ≥ 0; then the
`@validator('monthly_hours', pre=True, always=True)` runs with both
`working_days` and `daily_hours` already in `values`, so it returns
`working_days * daily_hours` and the caller-supplied `monthly_hours`
(default 176.0) is discarded; the recomputed value then passes its own
`ge=0` field check. (Pydantic aggregates field errors; this embedding
returns the first, which does not affect successful validations.) -/
def validate_create (inp : MonthlyQuotaInput) : Except PyError MonthlyQuotaBase :=
  if !valid_month_format inp.month then
    .error (.valueError "Month must be in YYYY-MM format")
  else
    let working_days := inp.working_days.getD 22
    if working_days < 0 then .error (.valueError "working_days must be >= 0")
    else
      let daily_hours := inp.daily_hours.getD 8
      if daily_hours < 0 then .error (.valueError "daily_hours must be >= 0")
      else
        let monthly_hours := (working_days : Rat) * daily_hours
        if monthly_hours < 0 then .error (.valueError "monthly_hours must be >= 0")
        else .ok { month := inp.month, working_days, daily_hours, monthly_hours }

/-- `CRUDMonthlyQuota.create_or_update` (app/crud/crud_monthly_quota.py,
lines 30-39) on an already-validated payload: replaces the quota row for
the month if one exists, otherwise inserts it. -/
def create_or_update (quotas : List MonthlyQuotaBase) (month : String)
    (obj_in : MonthlyQuotaBase) : List MonthlyQuotaBase :=
  if quotas.any (fun q => q.month == month) then
    quotas.map (fun q => if q.month == month then
      { obj_in with month := q.month } else q)
  else
    quotas ++ [obj_in]

end monthly_quota

/-! ## Concrete fixtures

Small database states used to evaluate the embedded operations at
explicit inputs. -/

/-- An employee who owns time entries (id 1, personal rate 30). -/
def c1_owner : User :=
  { id := 1, email := "alice@example.com", hourly_rate := some 30,
    role := .EMPLOYEE, is_active := true, is_superuser := false }

/-- A user with the global MANAGER role (id 2), not a superuser. -/
def c1_manager : User :=
  { id := 2, email := "bob@example.com", hourly_rate := none,
    role := .MANAGER, is_active := true, is_superuser := false }

/-- A DRAFT entry of user 1 with complete, valid fields. -/
def c1_draft : TimeEntry :=
  { id := 1, description := some "work", start_time := 0, end_time := some 3600,
    hourly_rate := some 30, billable := true, status := .DRAFT,
    rejection_reason := none, user_id := 1, task_id := 1, project_id := 1,
    approved_by_id := none }

/-- A BILLED (terminal) entry of user 1. -/
def c1_billed : TimeEntry :=
  { id := 2, description := some "done", start_time := 0, end_time := some 3600,
    hourly_rate := some 30, billable := true, status := .BILLED,
    rejection_reason := none, user_id := 1, task_id := 1, project_id := 1,
    approved_by_id := some 2 }

/-- Database with a DRAFT and a BILLED entry on project 1 (managed by
user 2). -/
def c1_db : DB :=
  { users := [c1_owner, c1_manager],
    projects := [{ id := 1, owner_id := 1, manager_id := some 2 }],
    tasks := [{ id := 1, project_id := 1, created_by_id := some 1,
                assigned_to_id := some 1 }],
    members := [],
    entries := [c1_draft, c1_billed] }

/-- A DRAFT entry of user 1 whose description is the empty string (so
`validate_for_submission` evaluates to false), all other fields valid. -/
def c2_entry : TimeEntry :=
  { id := 1, description := some "", start_time := 0, end_time := some 3600,
    hourly_rate := some 30, billable := true, status := .DRAFT,
    rejection_reason := none, user_id := 1, task_id := 1, project_id := 1,
    approved_by_id := none }

/-- Database holding only `c2_entry`. -/
def c2_db : DB :=
  { users := [c1_owner],
    projects := [{ id := 1, owner_id := 1, manager_id := none }],
    tasks := [{ id := 1, project_id := 1, created_by_id := some 1,
                assigned_to_id := some 1 }],
    members := [],
    entries := [c2_entry] }

/-- Team member of project 1 with an explicit override of 0, personal
rate 30. -/
def c3_user : User :=
  { id := 1, email := "carol@example.com", hourly_rate := some 30,
    role := .EMPLOYEE, is_active := true, is_superuser := false }

/-- Database where user 1 is a member of project 1 with `hourly_rate`
override 0. -/
def c3_db : DB :=
  { users := [c3_user],
    projects := [{ id := 1, owner_id := 2, manager_id := none }],
    tasks := [{ id := 1, project_id := 1, created_by_id := none,
                assigned_to_id := some 1 }],
    members := [{ project_id := 1, user_id := 1, hourly_rate := some 0 }],
    entries := [] }

/-- Create payload for task 1 with defaults. -/
def c3_inp : TimeEntryCreate := { task_id := 1, start_time := 0 }

/-- Witness fixture for rate resolution: member override 50, personal
rate 30 (the spec §8 example). -/
def c3w_db : DB :=
  { users := [c3_user],
    projects := [{ id := 1, owner_id := 2, manager_id := none }],
    tasks := [{ id := 1, project_id := 1, created_by_id := none,
                assigned_to_id := some 1 }],
    members := [{ project_id := 1, user_id := 1, hourly_rate := some 50 }],
    entries := [] }

/-- The entry `create_time_entry c3w_db c3_inp c3_user` produces. -/
def c3w_entry : TimeEntry :=
  { id := 1, description := none, start_time := 0, end_time := none,
    hourly_rate := some 50, billable := true, status := .DRAFT,
    rejection_reason := none, user_id := 1, task_id := 1, project_id := 1,
    approved_by_id := none }

/-- `c3w_db` after the creation. -/
def c3w_db2 : DB := { c3w_db with entries := [c3w_entry] }

/-- An active employee who is NOT a member of any project and not a
superuser. -/
def c4_user : User :=
  { id := 7, email := "dave@example.com", hourly_rate := some 10,
    role := .EMPLOYEE, is_active := true, is_superuser := false }

/-- Database with a task on project 1 and an empty membership table. -/
def c4_db : DB :=
  { users := [c4_user],
    projects := [{ id := 1, owner_id := 2, manager_id := some 3 }],
    tasks := [{ id := 1, project_id := 1, created_by_id := none,
                assigned_to_id := none }],
    members := [],
    entries := [] }

/-- Create payload for task 1 with defaults. -/
def c4_inp : TimeEntryCreate := { task_id := 1, start_time := 0 }

/-- The task of `c4_db`: unassigned, creator deleted. -/
def c4_task : Task :=
  { id := 1, project_id := 1, created_by_id := none, assigned_to_id := none }

/-- A DRAFT entry of user 1 (never submitted). -/
def c5_draft : TimeEntry :=
  { id := 1, description := some "work", start_time := 0, end_time := some 3600,
    hourly_rate := some 30, billable := true, status := .DRAFT,
    rejection_reason := none, user_id := 1, task_id := 1, project_id := 1,
    approved_by_id := none }

/-- Database holding only `c5_draft`; user 2 holds the MANAGER role. -/
def c5_db : DB :=
  { users := [c1_owner, c1_manager],
    projects := [{ id := 1, owner_id := 1, manager_id := some 2 }],
    tasks := [{ id := 1, project_id := 1, created_by_id := some 1,
                assigned_to_id := some 1 }],
    members := [],
    entries := [c5_draft] }

/-- A running DRAFT entry of user 1: `end_time` is still null. -/
def c6_entry : TimeEntry :=
  { id := 1, description := some "work", start_time := 0, end_time := none,
    hourly_rate := some 30, billable := true, status := .DRAFT,
    rejection_reason := none, user_id := 1, task_id := 1, project_id := 1,
    approved_by_id := none }

/-- Database holding only `c6_entry`. -/
def c6_db : DB :=
  { users := [c1_owner],
    projects := [{ id := 1, owner_id := 1, manager_id := none }],
    tasks := [{ id := 1, project_id := 1, created_by_id := some 1,
                assigned_to_id := some 1 }],
    members := [],
    entries := [c6_entry] }

/-- A patch that sets `end_time` for the first time and nothing else. -/
def c6_patch : TimeEntryUpdatePatch := { end_time := some 3600 }

/-- Project 1: owned by user 1, managed by user 2. -/
def c7_p : Project := { id := 1, owner_id := 1, manager_id := some 2 }

/-- The project's owner (not superuser, not its manager). -/
def c7_u1 : User :=
  { id := 1, email := "owner@example.com", hourly_rate := none,
    role := .EMPLOYEE, is_active := true, is_superuser := false }

/-- The project's manager (not superuser, not its owner). -/
def c7_u2 : User :=
  { id := 2, email := "mgr@example.com", hourly_rate := none,
    role := .MANAGER, is_active := true, is_superuser := false }

/-- Database holding project `c7_p`. -/
def c7_db : DB :=
  { users := [c7_u1, c7_u2], projects := [c7_p], tasks := [],
    members := [], entries := [] }

/-- A user (id 5) with one SUBMITTED (non-terminal) entry. -/
def c8_user : User :=
  { id := 5, email := "erin@example.com", hourly_rate := some 20,
    role := .EMPLOYEE, is_active := true, is_superuser := false }

/-- The blocking SUBMITTED entry of user 5. -/
def c8_open_entry : TimeEntry :=
  { id := 1, description := some "work", start_time := 0, end_time := some 3600,
    hourly_rate := some 20, billable := true, status := .SUBMITTED,
    rejection_reason := none, user_id := 5, task_id := 1, project_id := 1,
    approved_by_id := none }

/-- Database where user 5 has an open entry, owns/manages nothing. -/
def c8_db_blocked : DB :=
  { users := [c8_user],
    projects := [{ id := 1, owner_id := 9, manager_id := none }],
    tasks := [{ id := 1, project_id := 1, created_by_id := some 5,
                assigned_to_id := some 5 }],
    members := [{ project_id := 1, user_id := 5, hourly_rate := none }],
    entries := [c8_open_entry] }

/-- The same entry after it reached BILLED, approved by user 5 itself so
that the approver reference must be nulled on deletion. -/
def c8_billed_entry : TimeEntry :=
  { c8_open_entry with status := .BILLED, approved_by_id := some 5 }

/-- Database where all of user 5's entries are terminal and the user
owns/manages no project, but is referenced as assignee, creator and
approver. -/
def c8_db_ok : DB :=
  { users := [c8_user],
    projects := [{ id := 1, owner_id := 9, manager_id := none }],
    tasks := [{ id := 1, project_id := 1, created_by_id := some 5,
                assigned_to_id := some 5 }],
    members := [{ project_id := 1, user_id := 5, hourly_rate := none }],
    entries := [c8_billed_entry] }

/-- A valid create payload that explicitly supplies `monthly_hours = 100`
together with `working_days = 20` and `daily_hours = 8`. -/
def c10_inp : monthly_quota.MonthlyQuotaInput :=
  { month := "2025-01", working_days := some 20, daily_hours := some 8,
    monthly_hours := some 100 }

/-- A create payload that leaves every quota field at its default. -/
def c10w_inp : monthly_quota.MonthlyQuotaInput := { month := "2025-02" }

/-- The quota `validate_create c10w_inp` produces: 22 × 8 = 176. -/
def c10w_q : monthly_quota.MonthlyQuotaBase :=
  { month := "2025-02", working_days := 22, daily_hours := 8,
    monthly_hours := 176 }

/-! ## Theorems settling the claims -/

/-- C1: the claim says every transition operation guards the §4.1 edges and
raises `InvalidStateError` otherwise. The code violates this: the model's
own `can_transition_to` rules out DRAFT→APPROVED and BILLED→SUBMITTED, yet
the `approve` endpoint invoked on a DRAFT entry succeeds and persists
APPROVED with the approver set, and the `submit` endpoint invoked on a
BILLED (terminal) entry succeeds and persists SUBMITTED. No transition
operation consults `can_transition_to`, and no path raises an
invalid-state error. -/
theorem c1_transitions_unguarded :
    TimeEntry.can_transition_to c1_draft .APPROVED = false ∧
    (time_entries_api.approve_time_entry c1_db 1 c1_manager).map
      (fun r => (r.2.status, r.2.approved_by_id, r.1.entries.map (fun e => e.status)))
      = .ok (.APPROVED, some 2, [.APPROVED, .BILLED]) ∧
    TimeEntry.can_transition_to c1_billed .SUBMITTED = false ∧
    (time_entries_api.submit_time_entry c1_db 2 c1_owner).map
      (fun r => (r.2.status, r.1.entries.map (fun e => e.status)))
      = .ok (.SUBMITTED, [.DRAFT, .SUBMITTED]) :=
  ⟨rfl, rfl, rfl, rfl⟩

/-- C2: the claim says `submit` fails with `ValidationError` on an empty
description (and the other §4.1 gates). The code violates this: the
model's own `validate_for_submission` evaluates to `false` on `c2_entry`
(empty description), yet the `submit` endpoint on that entry succeeds and
persists SUBMITTED — `CRUDTimeEntry.submit` never invokes the
validation. -/
theorem c2_submit_unvalidated :
    TimeEntry.validate_for_submission c2_entry = .ok false ∧
    (time_entries_api.submit_time_entry c2_db 1 c1_owner).map
      (fun r => (r.2.status, r.1.entries.map (fun e => e.status)))
      = .ok (.SUBMITTED, [.SUBMITTED]) :=
  ⟨rfl, rfl⟩

/-- C3 counterexample: the claim says a present, non-null member override
equal to 0 wins over the personal rate. On `c3_db` the membership row for
(project 1, user 1) carries the override `some 0` and the user's personal
rate is 30, yet the created entry snapshots 30, not 0: the endpoint tests
the override with Python truthiness, so `0` falls through. -/
theorem c3_counterexample :
    crud_project.get_team_member c3_db 1 1 =
      some { project_id := 1, user_id := 1, hourly_rate := some 0 } ∧
    (time_entries_api.create_time_entry c3_db c3_inp c3_user).map
      (fun r => r.2.hourly_rate) = .ok (some 30) ∧
    some (30 : Rat) ≠ some 0 :=
  ⟨rfl, rfl, by decide⟩

/-- C4 counterexample: the claim says a non-member, non-superuser actor's
create request is denied with `PermissionDenied`. On `c4_db`, user 7 is
not a team member of project 1 (the membership table is empty), is not a
superuser, and is neither assignee nor manager — `can_track_time` itself
returns false — yet `create_time_entry` succeeds. -/
theorem c4_counterexample :
    crud_project.get_team_member c4_db 1 7 = none ∧
    c4_user.is_superuser = false ∧
    crud_task.can_track_time c4_db c4_user c4_task = .ok false ∧
    (time_entries_api.create_time_entry c4_db c4_inp c4_user).isOk = true :=
  ⟨rfl, rfl, rfl, rfl⟩

/-- C5: the claim says `reject` is legal only from SUBMITTED and stores the
reason. The code violates both parts: the model's `can_transition_to`
rules out DRAFT→REJECTED, yet the `reject` endpoint invoked by the manager
on a DRAFT entry with the non-empty reason "too vague" succeeds, persists
REJECTED, and leaves `rejection_reason` null — `CRUDTimeEntry.reject`
ignores its `rejection_reason` argument. (The non-empty-reason requirement
itself is enforced, by the route's `min_length=1` query declaration.) -/
theorem c5_reject_unguarded_reason_dropped :
    TimeEntry.can_transition_to c5_draft .REJECTED = false ∧
    (time_entries_api.reject_time_entry c5_db 1 "too vague" c1_manager).map
      (fun r => (r.2.status, r.2.rejection_reason)) = .ok (.REJECTED, none) ∧
    time_entries_api.reject_time_entry c5_db 1 "" c1_manager =
      .error (.httpException 422 "ensure this value has at least 1 characters") :=
  ⟨rfl, rfl, rfl⟩

/-- C6 counterexample: the claim says an update whose patch sets `end_time`
for the first time advances a DRAFT entry to SUBMITTED. On `c6_db` the
DRAFT entry has `end_time = none`; the owner's update with a patch that
only sets `end_time` succeeds, stores the new `end_time`, and leaves the
status DRAFT — the routed `CRUDTimeEntry.update` performs no implicit
submission (and no submit-style validation). -/
theorem c6_counterexample :
    c6_entry.end_time = none ∧ c6_entry.status = .DRAFT ∧
    (time_entries_api.update_time_entry c6_db 1 c6_patch c1_owner).map
      (fun r => (r.2.status, r.2.end_time)) = .ok (.DRAFT, some 3600) :=
  ⟨rfl, rfl, rfl⟩

/-- C7 counterexample: the claim says project deletion succeeds exactly for
a superuser or the project's manager, and that the owner is denied. On
`c7_db` the manager of project 1 (user 2, not superuser, not owner) is
denied, while the owner (user 1, not superuser, not manager) succeeds —
the endpoint checks `owner_id`, and the manager-based `can_delete`
predicate is never consulted. -/
theorem c7_counterexample :
    crud_project.can_delete c7_u2 c7_p = true ∧
    projects_api.delete_project c7_db 1 c7_u2 =
      .error (.httpException 400 "Not enough permissions") ∧
    c7_u1.is_superuser = false ∧ c7_p.manager_id ≠ some c7_u1.id ∧
    (projects_api.delete_project c7_db 1 c7_u1).isOk = true :=
  ⟨rfl, rfl, rfl, by decide, rfl⟩

/-- C10 counterexample: the claim says an explicitly supplied
`monthly_hours` is preserved. Validating a payload that supplies
`monthly_hours = 100` alongside `working_days = 20` and `daily_hours = 8`
succeeds but stores `160 = 20 × 8`: the `pre=True, always=True` validator
recomputes the product whenever `working_days` and `daily_hours` are in
`values`, discarding the supplied value. -/
theorem c10_counterexample :
    c10_inp.monthly_hours = some 100 ∧
    (monthly_quota.validate_create c10_inp).map (fun q => q.monthly_hours) =
      .ok 160 ∧
    (160 : Rat) ≠ 100 := by
  refine ⟨rfl, ?_, by decide⟩
  rw [monthly_quota.validate_create]
  rw [if_neg (by decide)]
  norm_num [c10_inp]
  rfl

/-- C9: `app/core/permissions.py` references the global `TimeEntryStatus`
without importing it, so `can_edit_timesheet`, `can_approve_timesheet` and
`can_mark_billed` raise `NameError` on every input, and every operation of
the alternative CRUD variant that consults them — `update`, `remove`,
`approve`, `reject`, `mark_billed` — fails on all inputs (`remove` fails
with 404 when the entry does not exist, and with the `NameError`
otherwise). -/
theorem c9_permissions_nameerror :
    (∀ (db : DB) (u : User) (e : TimeEntry),
      TimesheetPermissions.can_edit_timesheet db u e =
        .error (.nameError "TimeEntryStatus")) ∧
    (∀ (db : DB) (u : User) (e : TimeEntry),
      TimesheetPermissions.can_approve_timesheet db u e =
        .error (.nameError "TimeEntryStatus")) ∧
    (∀ (u : User) (e : TimeEntry),
      TimesheetPermissions.can_mark_billed u e =
        .error (.nameError "TimeEntryStatus")) ∧
    (∀ (db : DB) (e : TimeEntry) (patch : TimeEntryUpdatePatch) (u : User),
      crud_time_entry_new.update db e patch u =
        .error (.nameError "TimeEntryStatus")) ∧
    (∀ (db : DB) (id : Nat) (u : User),
      crud_time_entry_new.remove db id u =
        .error (match db.getEntry id with
                | none => .httpException 404 "Time entry not found"
                | some _ => .nameError "TimeEntryStatus")) ∧
    (∀ (db : DB) (e : TimeEntry) (u : User),
      crud_time_entry_new.approve db e u =
        .error (.nameError "TimeEntryStatus")) ∧
    (∀ (db : DB) (e : TimeEntry) (u : User) (reason : String),
      crud_time_entry_new.reject db e u reason =
        .error (.nameError "TimeEntryStatus")) ∧
    (∀ (db : DB) (e : TimeEntry) (u : User),
      crud_time_entry_new.mark_billed db e u =
        .error (.nameError "TimeEntryStatus")) := by
  refine ⟨fun db u e => rfl, fun db u e => rfl, fun u e => rfl,
          fun db e patch u => rfl, fun db id u => ?_,
          fun db e u => rfl, fun db e u reason => rfl, fun db e u => rfl⟩
  unfold crud_time_entry_new.remove
  cases h : db.getEntry id <;> rfl

/-- C6 amended: no update path performs the claimed implicit submission.
The routed `CRUDTimeEntry.update` applies the patch as-is — the status
changes only if the patch itself carries a status — and performs no
submit-style validation; the alternative variant's update, which does try
to set SUBMITTED whenever `end_time` appears in the patch, fails with
`NameError` on every call because its permission check references the
unimported `TimeEntryStatus`. -/
theorem c6_update_no_implicit_submit :
    (∀ (e : TimeEntry) (patch : TimeEntryUpdatePatch), patch.status = none →
      (crud_time_entry.update e patch).status = e.status) ∧
    (∀ (db : DB) (e : TimeEntry) (patch : TimeEntryUpdatePatch) (u : User),
      crud_time_entry_new.update db e patch u =
        .error (.nameError "TimeEntryStatus")) := by
  constructor
  · intro e patch h
    simp [crud_time_entry.update, CRUDBase.update, h]
  · intro db e patch u
    rfl

/-- C6 witness: the routed update of the running DRAFT entry with the
patch that sets `end_time` (and no status) leaves the status unchanged. -/
theorem c6_update_no_implicit_submit_witness :
    (crud_time_entry.update c6_entry c6_patch).status = c6_entry.status :=
  c6_update_no_implicit_submit.1 c6_entry c6_patch rfl

/-- C7 amended: deleting a project succeeds exactly when the actor is a
superuser or the project's OWNER; every other actor — including the
project's manager when they are neither — receives the permission error.
(The uncalled `can_delete` predicate would instead grant superuser ∨
manager.) -/
theorem c7_delete_project_owner_rule (db : DB) (project_id : Nat) (u : User) :
    (projects_api.delete_project db project_id u).isOk = true ↔
    ∃ p, db.getProject project_id = some p ∧
      (u.is_superuser = true ∨ p.owner_id = u.id) := by
  rw [projects_api.delete_project]
  cases h : db.getProject project_id with
  | none => simp [h, Except.isOk, Except.toBool]
  | some p =>
    by_cases hs : u.is_superuser
    · simp [h, hs, Except.isOk, Except.toBool]
    · by_cases ho : p.owner_id = u.id
      · simp [h, hs, ho, Except.isOk, Except.toBool]
      · simp [h, hs, ho, Except.isOk, Except.toBool]

/-- C4 amended: creating a time entry succeeds for ANY actor — team member
or not, superuser or not — exactly when the referenced task exists, the
payload status is DRAFT, and the resolved rate is non-null (a truthy
member override or a non-null personal rate; otherwise the NOT NULL
`hourly_rate` column rejects the commit). Membership itself is never
required, and no `PermissionDenied` outcome exists on this path
(`can_track_time` implements the membership rule but is never called by
the endpoint). -/
theorem c4_create_no_membership_check :
    (∀ (db : DB) (inp : TimeEntryCreate) (u : User),
      (time_entries_api.create_time_entry db inp u).isOk = true ↔
      ∃ task, db.getTask inp.task_id = some task ∧ inp.status = some .DRAFT ∧
        ((∃ m r, crud_project.get_team_member db task.project_id u.id = some m ∧
            m.hourly_rate = some r ∧ r ≠ 0) ∨ u.hourly_rate.isSome = true)) ∧
    (∀ (db : DB) (inp : TimeEntryCreate) (u : User),
      time_entries_api.create_time_entry db inp u ≠
        .error (.httpException 403 "Not enough permissions")) := by
  constructor
  · intro db inp u
    rw [time_entries_api.create_time_entry]
    cases ht : db.getTask inp.task_id with
    | none => simp [Except.isOk, Except.toBool]
    | some task =>
      dsimp only
      by_cases hs : inp.status = some .DRAFT
      · rw [if_neg (by simp [hs])]
        cases hm : crud_project.get_team_member db task.project_id u.id with
        | none =>
          cases hu2 : u.hourly_rate with
          | none => simp [hs, hm, hu2, Except.isOk, Except.toBool]
          | some r2 => simp [hs, hm, hu2, Except.isOk, Except.toBool]
        | some m =>
          dsimp only
          cases hr : m.hourly_rate with
          | none =>
            cases hu2 : u.hourly_rate with
            | none => simp [hs, hm, hr, hu2, Except.isOk, Except.toBool]
            | some r2 => simp [hs, hm, hr, hu2, Except.isOk, Except.toBool]
          | some r =>
            by_cases hz : r = 0
            · cases hu2 : u.hourly_rate with
              | none => simp [hs, hm, hr, hz, hu2, Except.isOk, Except.toBool]
              | some r2 => simp [hs, hm, hr, hz, hu2, Except.isOk, Except.toBool]
            · simp [hs, hm, hr, hz, Except.isOk, Except.toBool]
      · rw [if_pos (by simp [hs])]
        simp [hs, Except.isOk, Except.toBool]
  · intro db inp u
    rw [time_entries_api.create_time_entry]
    cases ht : db.getTask inp.task_id with
    | none => simp
    | some task =>
      dsimp only
      by_cases hs : inp.status = some .DRAFT
      · rw [if_neg (by simp [hs])]
        cases hm : crud_project.get_team_member db task.project_id u.id with
        | none => cases hu2 : u.hourly_rate <;> simp
        | some m =>
          dsimp only
          cases hr : m.hourly_rate with
          | none => cases hu2 : u.hourly_rate <;> simp
          | some r =>
            by_cases hz : r = 0
            · cases hu2 : u.hourly_rate <;> simp [hz]
            · simp [hz]
      · rw [if_pos (by simp [hs])]
        simp

/-- C3 amended: on creation the effective rate is resolved
first-truthy-match-wins — the member override applies only when it is
present, non-null AND non-zero; otherwise the entry snapshots the acting
user's personal `hourly_rate` as it is (possibly null — there is no
documented default of 0). The rate is copied into the entry at creation,
and later changes to the membership table (adding or removing an
override) never touch the stored entries. -/
theorem c3_rate_snapshot (db : DB) (inp : TimeEntryCreate) (u : User)
    (db2 : DB) (e : TimeEntry)
    (h : time_entries_api.create_time_entry db inp u = .ok (db2, e)) :
    (∃ task, db.getTask inp.task_id = some task ∧
      ((∃ m r, crud_project.get_team_member db task.project_id u.id = some m ∧
          m.hourly_rate = some r ∧ r ≠ 0 ∧ e.hourly_rate = some r) ∨
        e.hourly_rate = u.hourly_rate)) ∧
    (∀ (db3 : DB) (pid uid : Nat) (rate : Option Rat),
      (crud_project.add_team_member db3 pid uid rate).entries = db3.entries ∧
      (crud_project.remove_team_member db3 pid uid).entries = db3.entries) := by
  refine ⟨?_, fun db3 pid uid rate => ⟨rfl, rfl⟩⟩
  unfold time_entries_api.create_time_entry at h
  cases ht : db.getTask inp.task_id with
  | none => rw [ht] at h; exact absurd h (by simp)
  | some task =>
    rw [ht] at h
    dsimp only [] at h
    refine ⟨task, rfl, ?_⟩
    by_cases hs : inp.status = some .DRAFT
    · rw [if_neg (by simp [hs])] at h
      cases hm : crud_project.get_team_member db task.project_id u.id with
      | none =>
        rw [hm] at h
        dsimp only [] at h
        cases hu2 : u.hourly_rate with
        | none => rw [hu2] at h; exact absurd h (by simp)
        | some r2 =>
          rw [hu2] at h
          simp only [Except.ok.injEq, Prod.mk.injEq] at h
          obtain ⟨-, he⟩ := h
          subst he
          right
          simp [hu2]
      | some m =>
        rw [hm] at h
        dsimp only [] at h
        cases hr : m.hourly_rate with
        | none =>
          rw [hr] at h
          dsimp only [] at h
          cases hu2 : u.hourly_rate with
          | none => rw [hu2] at h; exact absurd h (by simp)
          | some r2 =>
            rw [hu2] at h
            simp only [Except.ok.injEq, Prod.mk.injEq] at h
            obtain ⟨-, he⟩ := h
            subst he
            right
            simp [hu2]
        | some r =>
          rw [hr] at h
          dsimp only [] at h
          by_cases hz : r = 0
          · rw [if_neg (by simp [hz])] at h
            cases hu2 : u.hourly_rate with
            | none => rw [hu2] at h; exact absurd h (by simp)
            | some r2 =>
              rw [hu2] at h
              simp only [Except.ok.injEq, Prod.mk.injEq] at h
              obtain ⟨-, he⟩ := h
              subst he
              right
              simp [hu2]
          · rw [if_pos hz] at h
            simp only [Except.ok.injEq, Prod.mk.injEq] at h
            obtain ⟨-, he⟩ := h
            subst he
            left
            exact ⟨m, r, rfl, hr, hz, by simp⟩
    · rw [if_pos (by simp [hs])] at h
      exact absurd h (by simp)

/-- C3 witness: with a member override of 50 and a personal rate of 30
(the spec §8 scenario), the created entry snapshots 50, and membership
changes leave stored entries untouched. -/
theorem c3_rate_snapshot_witness :
    (∃ task, c3w_db.getTask c3_inp.task_id = some task ∧
      ((∃ m r, crud_project.get_team_member c3w_db task.project_id c3_user.id = some m ∧
          m.hourly_rate = some r ∧ r ≠ 0 ∧ c3w_entry.hourly_rate = some r) ∨
        c3w_entry.hourly_rate = c3_user.hourly_rate)) ∧
    (∀ (db3 : DB) (pid uid : Nat) (rate : Option Rat),
      (crud_project.add_team_member db3 pid uid rate).entries = db3.entries ∧
      (crud_project.remove_team_member db3 pid uid).entries = db3.entries) :=
  c3_rate_snapshot c3w_db c3_inp c3_user c3w_db2 c3w_entry rfl

/-- C8: deleting a user with any time entry outside
{APPROVED, REJECTED, BILLED} fails with the conflict error and deletes
nothing; when all of the user's entries are terminal and the user owns and
manages no project, deletion succeeds, and the dangling `approved_by_id`
references on time entries and `assigned_to_id`/`created_by_id` references
on tasks are set to null while the tasks and entries themselves survive
(no cascade: the table lengths are unchanged). -/
theorem c8_user_deletion :
    (∀ (db : DB) (id : Nat) (user : User) (e : TimeEntry),
      db.getUser id = some user → e ∈ db.entries → e.user_id = user.id →
      e.status ≠ .APPROVED → e.status ≠ .REJECTED → e.status ≠ .BILLED →
      crud_user.remove db id = .error (.httpException 400
        "Cannot delete user with pending time entries. Please process all time entries first.")) ∧
    (∀ (db : DB) (id : Nat) (user : User),
      db.getUser id = some user →
      (∀ e ∈ db.entries, e.user_id = user.id →
        e.status = .APPROVED ∨ e.status = .REJECTED ∨ e.status = .BILLED) →
      (∀ p ∈ db.projects, p.manager_id ≠ some user.id ∧ p.owner_id ≠ user.id) →
      ∃ db1, crud_user.remove db id = .ok (db1, user) ∧
        db1.tasks.length = db.tasks.length ∧
        db1.entries.length = db.entries.length ∧
        (∀ t ∈ db1.tasks, t.assigned_to_id ≠ some user.id ∧
          t.created_by_id ≠ some user.id) ∧
        (∀ x ∈ db1.entries, x.approved_by_id ≠ some user.id) ∧
        (∀ u2 ∈ db1.users, u2.id ≠ user.id)) := by
  constructor
  · intro db id user e hu he huid h1 h2 h3
    have hcond : ((db.entries.filter (fun x => x.user_id == user.id)).any
        (fun x => !([TimeEntryStatus.APPROVED, .REJECTED, .BILLED].contains x.status)))
        = true := by
      rw [List.any_eq_true]
      refine ⟨e, List.mem_filter.mpr ⟨he, by simp [huid]⟩, ?_⟩
      cases hst : e.status
      case APPROVED => exact absurd hst h1
      case REJECTED => exact absurd hst h2
      case BILLED => exact absurd hst h3
      case DRAFT => decide
      case SUBMITTED => decide
    unfold crud_user.remove
    rw [hu]
    dsimp only
    rw [if_pos hcond]
  · intro db id user hu hterm hproj
    have hcond : ((db.entries.filter (fun x => x.user_id == user.id)).any
        (fun x => !([TimeEntryStatus.APPROVED, .REJECTED, .BILLED].contains x.status)))
        = false := by
      rw [List.any_eq_false]
      intro x hx
      obtain ⟨hxe, hxu⟩ := List.mem_filter.mp hx
      have hxid : x.user_id = user.id := by simpa using hxu
      rcases hterm x hxe hxid with h|h|h <;> simp only [h] <;> decide
    have hmgr : db.projects.any (fun p => p.manager_id == some user.id) = false := by
      rw [List.any_eq_false]
      intro p hp
      have := (hproj p hp).1
      simp [this]
    have howner : db.projects.any (fun p => p.owner_id == user.id) = false := by
      rw [List.any_eq_false]
      intro p hp
      have := (hproj p hp).2
      simp [this]
    refine ⟨{ db with
        members := db.members.filter (fun m => m.user_id != user.id)
        tasks := db.tasks.map (fun t =>
          let t1 := if t.assigned_to_id == some user.id then
                      { t with assigned_to_id := none } else t
          if t1.created_by_id == some user.id then
            { t1 with created_by_id := none } else t1)
        entries := db.entries.map (fun x =>
          if x.approved_by_id == some user.id then
            { x with approved_by_id := none } else x)
        users := db.users.filter (fun u2 => u2.id != user.id) },
      ?_, ?_, ?_, ?_, ?_, ?_⟩
    · unfold crud_user.remove
      rw [hu]
      dsimp only
      rw [if_neg (by rw [hcond]; exact (by decide)),
          if_neg (by rw [hmgr]; exact (by decide)),
          if_neg (by rw [howner]; exact (by decide))]
    · simp
    · simp
    · intro t ht
      obtain ⟨s, hs, rfl⟩ := List.mem_map.mp ht
      dsimp only
      constructor
      · by_cases h1 : (s.assigned_to_id == some user.id) = true
        · by_cases h2 : (s.created_by_id == some user.id) = true <;> simp [h1, h2]
        · by_cases h2 : (s.created_by_id == some user.id) = true <;>
            simp [h1, h2] <;> simpa using h1
      · by_cases h1 : (s.assigned_to_id == some user.id) = true
        · by_cases h2 : (s.created_by_id == some user.id) = true <;>
            simp [h1, h2] <;> simpa using h2
        · by_cases h2 : (s.created_by_id == some user.id) = true <;>
            simp [h1, h2] <;> simpa using h2
    · intro x hx
      obtain ⟨s, hs, rfl⟩ := List.mem_map.mp hx
      by_cases hb : (s.approved_by_id == some user.id) = true <;> simp [hb] <;>
        simpa using hb
    · intro u2 hu2
      have := (List.mem_filter.mp hu2).2
      simpa using this

/-- C8 witness: user 5 with a SUBMITTED entry cannot be deleted; once the
entry is BILLED (and the user owns/manages nothing) deletion succeeds and
nulls the dangling references without cascading. -/
theorem c8_user_deletion_witness :
    crud_user.remove c8_db_blocked 5 = .error (.httpException 400
      "Cannot delete user with pending time entries. Please process all time entries first.") ∧
    (∃ db1, crud_user.remove c8_db_ok 5 = .ok (db1, c8_user) ∧
      db1.tasks.length = c8_db_ok.tasks.length ∧
      db1.entries.length = c8_db_ok.entries.length ∧
      (∀ t ∈ db1.tasks, t.assigned_to_id ≠ some c8_user.id ∧
        t.created_by_id ≠ some c8_user.id) ∧
      (∀ x ∈ db1.entries, x.approved_by_id ≠ some c8_user.id) ∧
      (∀ u2 ∈ db1.users, u2.id ≠ c8_user.id)) :=
  ⟨c8_user_deletion.1 c8_db_blocked 5 c8_user c8_open_entry rfl (by decide) rfl
      (by decide) (by decide) (by decide),
    c8_user_deletion.2 c8_db_ok 5 c8_user rfl (by decide) (by decide)⟩

/-- C10 amended: on every successfully validated create payload,
`monthly_hours` equals `working_days × daily_hours` — also when the caller
supplied an explicit `monthly_hours`, whose value is discarded by the
always-on pre-validator. -/
theorem c10_monthly_hours_always_product (inp : monthly_quota.MonthlyQuotaInput)
    (q : monthly_quota.MonthlyQuotaBase)
    (h : monthly_quota.validate_create inp = .ok q) :
    q.monthly_hours = (q.working_days : Rat) * q.daily_hours := by
  rw [monthly_quota.validate_create] at h
  dsimp only [] at h
  split at h
  · exact absurd h (by simp)
  · split at h
    · exact absurd h (by simp)
    · split at h
      · exact absurd h (by simp)
      · split at h
        · exact absurd h (by simp)
        · cases h
          rfl

/-- C10 witness: the all-defaults payload validates to the quota with
`monthly_hours = 176 = 22 × 8`. -/
theorem c10_monthly_hours_always_product_witness :
    c10w_q.monthly_hours = (c10w_q.working_days : Rat) * c10w_q.daily_hours :=
  c10_monthly_hours_always_product c10w_inp c10w_q (by
    rw [monthly_quota.validate_create]
    rw [if_neg (by decide)]
    norm_num [c10w_inp, c10w_q])

end Tracker
